import Mathlib

/-
Verification of the handle-store / operation-engine servers:
  * `Srv`  models src/mcp_handles_server/df_abstractions.py (sqlite-backed store)
  * `Mem`  models src/mcp_handles/df_abstractions.py        (in-memory dict store)
  * `Gen`  models src/mcp_handles/pandas_generic.py         (in-memory dict store + exec)

Machine representation choices:
  * a pandas DataFrame is a `Table`: an ordered list of column names and an
    ordered list of rows (one cell list per row);
  * cell values are a tagged union `Value` over integers, strings, booleans
    and the missing-value marker (NaN);
  * both the sqlite `handles` table (TEXT PRIMARY KEY, INSERT OR REPLACE) and
    the Python `data_handles` dict are `Store`: an association list with
    insert-or-replace writes and point lookups; pickling round-trips values
    unchanged, so serialization is the identity in the model;
  * `uuid.uuid4()` draws are modelled as explicit fresh-token parameters;
    theorems that depend on uniqueness carry the freshness hypothesis
    (the token is not already a key of the store).
-/

/-- A cell value of a table: tagged union over the scalar types the sample
data and operations use, plus the missing-value marker (pandas NaN). -/
inductive Value
  | vInt (n : Int)
  | vStr (s : String)
  | vBool (b : Bool)
  | vNA
deriving DecidableEq, Repr

/-- Python `str()` as applied by `.astype(str)`: integers render in decimal,
booleans as True/False, NaN as "nan". -/
def Value.toStr : Value → String
  | .vInt n => toString n
  | .vStr s => s
  | .vBool b => if b then "True" else "False"
  | .vNA => "nan"

/-- A DataFrame value: ordered column names and ordered rows of cells.
Each row is column-aligned with `cols`. -/
structure Table where
  cols : List String
  rows : List (List Value)
deriving DecidableEq, Repr

/-- Cell of row `r` at the column named `c` (columns given by `cols`);
missing columns or short rows read as NaN. -/
def cellOf (cols : List String) (r : List Value) (c : String) : Value :=
  match List.findIdx? (fun x => x == c) cols with
  | some i => r.getD i .vNA
  | none => .vNA

/-- Model of `df[cs]`: projection to the named columns, in the order given. -/
def Table.project (t : Table) (cs : List String) : Table :=
  ⟨cs, t.rows.map (fun r => cs.map (fun c => cellOf t.cols r c))⟩

/-- Model of `df[c] = vals`: replace the column's values in place when `c` already
exists, otherwise append the new column at the end (pandas column
assignment). -/
def Table.setCol (t : Table) (c : String) (vals : List Value) : Table :=
  match List.findIdx? (fun x => x == c) t.cols with
  | some i => ⟨t.cols, (t.rows.zip vals).map (fun p => p.1.set i p.2)⟩
  | none => ⟨t.cols ++ [c], (t.rows.zip vals).map (fun p => p.1 ++ [p.2])⟩

/-- Helper for `dropDuplicates`: keeps the rows not already seen, in order,
threading the set of rows seen so far. -/
def dedupSeen (seen : List (List Value)) : List (List Value) → List (List Value)
  | [] => []
  | r :: rs => if r ∈ seen then dedupSeen seen rs else r :: dedupSeen (r :: seen) rs

/-- Model of `df.drop_duplicates()`: remove every row equal to an earlier row,
keeping the first occurrence (row order otherwise preserved). Modelled from
the spec's description of the pandas library call: "removes rows that
duplicate ... column values, keeping first occurrence". -/
def dropDuplicates (l : List (List Value)) : List (List Value) :=
  dedupSeen [] l

/-- The handle store: sqlite `handles` table rows / the `data_handles` dict,
keyed by handle token. -/
abbrev Store := List (String × Table)

/-- Point lookup by token (sqlite SELECT by primary key / dict lookup). -/
def lookupH (k : String) : Store → Option Table
  | [] => none
  | (k', t) :: rest => if k' = k then some t else lookupH k rest

/-- INSERT OR REPLACE on the primary key / Python dict assignment. -/
def insertReplace (k : String) (t : Table) : Store → Store
  | [] => [(k, t)]
  | (k', t') :: rest => if k' = k then (k, t) :: rest else (k', t') :: insertReplace k t rest

/-- Structured content of the error strings the tools return. Each
constructor records exactly the data the source interpolates into the
corresponding f-string (see the per-operation definitions). -/
inductive Err
  | handleNotFound (h : String)
  | bothHandlesNotFound
  | inputHandleNotFound (h a : String)
  | tableNotFound (name : String)
  | columnsNotFound (names : List String)
  | columnsNotFoundNoNames
  | columnsNotFoundPair (c1 c2 : String)
  | groupColumnsNotFound (names : List String)
  | aggColumnsNotFound (names : List String)
  | joinColumnNotFoundNoName
  | joinColumnNotFound (c : String)
  | invalidJoinKind (how : String)
  | invalidFormat (fmt : String)
  | filterError (expr : String)
  | groupError
  | execFailed (code : String)
  | aliasNotFound (a : String)
  | aliasNotDataFrame (a ty : String)
  | nonPositiveN
deriving DecidableEq, Repr

/-- The column names an error message interpolates (empty when the message
names no columns). Used to state the "lists every missing name" claim. -/
def Err.listedCols : Err → List String
  | .columnsNotFound ns => ns
  | .columnsNotFoundPair c1 c2 => [c1, c2]
  | .groupColumnsNotFound ns => ns
  | .aggColumnsNotFound ns => ns
  | .joinColumnNotFound c => [c]
  | _ => []

/-- Outcome of a tool call: a returned success payload, a returned error
value (string beginning with "Error:"), or an uncaught Python exception. -/
inductive Res (α : Type)
  | ok (a : α)
  | err (e : Err)
  | raised (msg : String)
deriving DecidableEq, Repr

def Res.isErr : Res α → Bool
  | .err _ => true
  | _ => false

def Res.isOk : Res α → Bool
  | .ok _ => true
  | _ => false

def Res.map (f : α → β) : Res α → Res β
  | .ok a => .ok (f a)
  | .err e => .err e
  | .raised m => .raised m

/-- Non-key cells of a row of `t` (cells of the columns other than `onc`),
in column order. -/
def restCells (t : Table) (onc : String) (r : List Value) : List Value :=
  ((t.cols.zip r).filter (fun p => decide (p.1 ≠ onc))).map Prod.snd

/-- Result columns of a merge: left columns, then right non-key columns. -/
def mergeCols (t1 t2 : Table) (onc : String) : List String :=
  t1.cols ++ t2.cols.filter (fun c => decide (c ≠ onc))

/-- Join-key cell of a row. -/
def keyOf (t : Table) (onc : String) (r : List Value) : Value :=
  cellOf t.cols r onc

def mergeInnerRows (t1 t2 : Table) (onc : String) : List (List Value) :=
  t1.rows.flatMap (fun r1 =>
    (t2.rows.filter (fun r2 => decide (keyOf t2 onc r2 = keyOf t1 onc r1))).map
      (fun r2 => r1 ++ restCells t2 onc r2))

def mergeLeftRows (t1 t2 : Table) (onc : String) : List (List Value) :=
  t1.rows.flatMap (fun r1 =>
    match t2.rows.filter (fun r2 => decide (keyOf t2 onc r2 = keyOf t1 onc r1)) with
    | [] => [r1 ++ (t2.cols.filter (fun c => decide (c ≠ onc))).map (fun _ => Value.vNA)]
    | ms => ms.map (fun r2 => r1 ++ restCells t2 onc r2))

def mergeRightRows (t1 t2 : Table) (onc : String) : List (List Value) :=
  t2.rows.flatMap (fun r2 =>
    match t1.rows.filter (fun r1 => decide (keyOf t1 onc r1 = keyOf t2 onc r2)) with
    | [] => [t1.cols.map (fun c => if c = onc then keyOf t2 onc r2 else Value.vNA)
               ++ restCells t2 onc r2]
    | ms => ms.map (fun r1 => r1 ++ restCells t2 onc r2))

def mergeOuterRows (t1 t2 : Table) (onc : String) : List (List Value) :=
  mergeLeftRows t1 t2 onc ++
  (t2.rows.filter (fun r2 =>
      decide ((t1.rows.filter (fun r1 => decide (keyOf t1 onc r1 = keyOf t2 onc r2))) = []))).map
    (fun r2 => t1.cols.map (fun c => if c = onc then keyOf t2 onc r2 else Value.vNA)
               ++ restCells t2 onc r2)

/-- Modelled from the spec: `pd.merge(df1, df2, on=onc, how=how)` (external
pandas library call). "Join semantics follow standard relational algebra:
inner keeps only matching key tuples; left/right preserve all rows of the
named side filling unmatched columns with a missing-value marker; outer
preserves all rows from both sides." Result columns are the left table's
followed by the right table's non-key columns. `none` models the exception
pandas raises for a join kind outside the four supported ones. -/
def pdMerge (t1 t2 : Table) (onc how : String) : Option Table :=
  if how = "inner" then some ⟨mergeCols t1 t2 onc, mergeInnerRows t1 t2 onc⟩
  else if how = "left" then some ⟨mergeCols t1 t2 onc, mergeLeftRows t1 t2 onc⟩
  else if how = "right" then some ⟨mergeCols t1 t2 onc, mergeRightRows t1 t2 onc⟩
  else if how = "outer" then some ⟨mergeCols t1 t2 onc, mergeOuterRows t1 t2 onc⟩
  else none

/-- Views a list of cells as integers when every cell is an integer. -/
def asInts (vs : List Value) : Option (List Int) :=
  vs.mapM (fun v => match v with | .vInt n => some n | _ => none)

/-- Modelled from the spec: the pandas aggregation reductions the value model
expresses. "sum"/"min"/"max" follow standard numeric reduction over integer
columns; "count" counts non-missing values. Aggregations whose results fall
outside the value model (e.g. "mean", which is floating point) and unknown
names return `none`, which lands in the caught-exception branch of
`group_by`. -/
def applyAgg : String → List Value → Option Value
  | "sum", vs => (asInts vs).map (fun ns => .vInt (ns.foldl (fun a b => a + b) 0))
  | "count", vs => some (.vInt (Int.ofNat (vs.filter (fun v => decide (v ≠ .vNA))).length))
  | "min", vs => (asInts vs).bind (fun ns => ns.min?.map Value.vInt)
  | "max", vs => (asInts vs).bind (fun ns => ns.max?.map Value.vInt)
  | _, _ => none

/-- Modelled from the spec: `df.groupby(group_columns, as_index=False).agg(agg_dict)`
(external pandas call). "Groups by equality of group-column tuples, applies
the aggregation per target column, one output row per distinct group-key
tuple"; output columns are the group columns followed by the aggregated
columns keeping their names. `none` models a raised pandas exception
(unsupported aggregation), caught by `group_by`. -/
def groupbyAgg (t : Table) (gcols : List String) (aggs : List (String × String)) :
    Option Table := do
  let keys := dropDuplicates (t.rows.map (fun r => gcols.map (fun c => cellOf t.cols r c)))
  let rows ← keys.mapM (fun key => do
    let grp := t.rows.filter (fun r => decide (gcols.map (fun c => cellOf t.cols r c) = key))
    let aggVals ← aggs.mapM (fun p => applyAgg p.2 (grp.map (fun r => cellOf t.cols r p.1)))
    pure (key ++ aggVals))
  pure ⟨gcols ++ aggs.map Prod.fst, rows⟩

namespace Srv

/-- The seed catalog `sample_db` of src/mcp_handles_server/df_abstractions.py
(6 users including "Alice2", 6 orders). -/
def sample_db : List (String × Table) :=
  [("users", ⟨["user_id", "name", "city"],
     [[.vInt 1, .vStr "Alice", .vStr "New York"],
      [.vInt 2, .vStr "Bob", .vStr "London"],
      [.vInt 3, .vStr "Charlie", .vStr "Paris"],
      [.vInt 4, .vStr "David", .vStr "London"],
      [.vInt 5, .vStr "Eve", .vStr "Tokyo"],
      [.vInt 6, .vStr "Alice2", .vStr "New York"]]⟩),
   ("orders", ⟨["order_id", "user_id", "product", "amount"],
     [[.vInt 101, .vInt 1, .vStr "Laptop", .vInt 1200],
      [.vInt 102, .vInt 2, .vStr "Keyboard", .vInt 75],
      [.vInt 103, .vInt 1, .vStr "Mouse", .vInt 25],
      [.vInt 104, .vInt 3, .vStr "Monitor", .vInt 300],
      [.vInt 105, .vInt 5, .vStr "Webcam", .vInt 50],
      [.vInt 106, .vInt 2, .vStr "Desk", .vInt 250]]⟩)]

/-- Model of `save_handle(handle, df)`: pickle + INSERT OR REPLACE + commit, followed
by a verification read of the just-written handle (`verify = load_handle(handle)`).
Returns the updated store and the verification read's result. -/
def save_handle (db : Store) (h : String) (t : Table) : Store × Option Table :=
  let db2 := insertReplace h t db
  (db2, lookupH h db2)

/-- Model of `load_handle(handle)`: SELECT by primary key; `None` when absent. -/
def load_handle (db : Store) (h : String) : Option Table :=
  lookupH h db

/-- Model of `get_db_tables()`: the seed catalog's table names. -/
def get_db_tables (db : Store) : Store × Res String :=
  (db, .ok (String.intercalate ", " (sample_db.map Prod.fst)))

/-- Model of `query_database(table_name)`: looks the name up in `sample_db`, saves a
copy under a fresh uuid (`fresh`) and returns that handle; unknown names
return the "Table not found" error. -/
def query_database (db : Store) (fresh name : String) : Store × Res String :=
  match lookupH name sample_db with
  | some t => ((save_handle db fresh t).1, .ok fresh)
  | none => (db, .err (.tableNotFound name))

/-- The combined column `df[col1].astype(str) + sep + df[col2].astype(str)`. -/
def combinedVals (df : Table) (c1 c2 sep : String) : List Value :=
  df.rows.map (fun r =>
    .vStr ((cellOf df.cols r c1).toStr ++ sep ++ (cellOf df.cols r c2).toStr))

/-- Model of `combine_columns(handle, col1, col2, new_col, sep=" ")`: loads the handle,
checks both source columns exist (on failure the message is the fixed string
"Error: Column(s) not found.", which interpolates no column names), assigns
the stringified combination to `new_col`, and re-saves under the same
handle. -/
def combine_columns (db : Store) (h c1 c2 nc sep : String) : Store × Res String :=
  match load_handle db h with
  | none => (db, .err (.handleNotFound h))
  | some df =>
    if c1 ∈ df.cols ∧ c2 ∈ df.cols then
      ((save_handle db h (df.setCol nc (combinedVals df c1 c2 sep))).1, .ok h)
    else (db, .err .columnsNotFoundNoNames)

/-- Model of `join_dataframes(handle1, handle2, on_column, how='inner')`: loads both
handles ("One or both handles not found." on a miss), checks the join column
is in both ("Join column not found.", no name interpolated), then calls
`pd.merge` directly — the join kind is never validated, so a kind pandas
rejects raises an uncaught exception. On success saves under a fresh uuid. -/
def join_dataframes (db : Store) (fresh h1 h2 onc how : String) : Store × Res String :=
  match load_handle db h1, load_handle db h2 with
  | some df1, some df2 =>
    if onc ∈ df1.cols ∧ onc ∈ df2.cols then
      match pdMerge df1 df2 onc how with
      | some j => ((save_handle db fresh j).1, .ok fresh)
      | none => (db, .raised "pandas merge: invalid how")
    else (db, .err .joinColumnNotFoundNoName)
  | _, _ => (db, .err .bothHandlesNotFound)

/-- Model of `select_columns(handle, columns)`: collects every requested column absent
from the frame; a non-empty missing list is returned in the error message
("Error: Columns {missing_cols} not found."), otherwise the projection is
saved under a fresh uuid. -/
def select_columns (db : Store) (fresh h : String) (columns : List String) :
    Store × Res String :=
  match load_handle db h with
  | none => (db, .err (.handleNotFound h))
  | some df =>
    let missing := columns.filter (fun c => decide (c ∉ df.cols))
    if missing.isEmpty then
      ((save_handle db fresh (df.project columns)).1, .ok fresh)
    else (db, .err (.columnsNotFound missing))

/-- Model of `filter_rows(handle, filter_expr)`: `df.query(filter_expr)` inside
try/except. The pandas expression evaluator is abstracted as `q`; `none`
models a raised exception, caught and returned as the error string. -/
def filter_rows (q : String → Table → Option Table) (db : Store) (fresh h expr : String) :
    Store × Res String :=
  match load_handle db h with
  | none => (db, .err (.handleNotFound h))
  | some df =>
    match q expr df with
    | none => (db, .err (.filterError expr))
    | some fdf => ((save_handle db fresh fdf).1, .ok fresh)

/-- Model of `drop_columns(handle, columns)`: `df.drop(columns=columns, errors='ignore')`
— keeps the columns not named, silently ignoring unknown names. -/
def drop_columns (db : Store) (fresh h : String) (columns : List String) :
    Store × Res String :=
  match load_handle db h with
  | none => (db, .err (.handleNotFound h))
  | some df =>
    ((save_handle db fresh (df.project (df.cols.filter (fun c => decide (c ∉ columns))))).1,
     .ok fresh)

/-- Model of `remove_duplicates(handle)`: `df.drop_duplicates()` over full rows. -/
def remove_duplicates (db : Store) (fresh h : String) : Store × Res String :=
  match load_handle db h with
  | none => (db, .err (.handleNotFound h))
  | some df => ((save_handle db fresh ⟨df.cols, dropDuplicates df.rows⟩).1, .ok fresh)

/-- Model of `distinct_rows(handle, columns=None)`: with a truthy (non-empty) column
list, validates the subset then computes `df[columns].drop_duplicates()` —
note the projection happens BEFORE deduplication, so the result holds only
the subset columns; with `None` (or the falsy empty list) it is a full-row
`df.drop_duplicates()`. -/
def distinct_rows (db : Store) (fresh h : String) (columns : Option (List String)) :
    Store × Res String :=
  match load_handle db h with
  | none => (db, .err (.handleNotFound h))
  | some df =>
    match columns with
    | some cs =>
      if cs.isEmpty then
        ((save_handle db fresh ⟨df.cols, dropDuplicates df.rows⟩).1, .ok fresh)
      else
        let missing := cs.filter (fun c => decide (c ∉ df.cols))
        if missing.isEmpty then
          ((save_handle db fresh ⟨cs, dropDuplicates (df.project cs).rows⟩).1, .ok fresh)
        else (db, .err (.columnsNotFound missing))
    | none => ((save_handle db fresh ⟨df.cols, dropDuplicates df.rows⟩).1, .ok fresh)

/-- Rendering of a column's pandas dtype, restricted to the value model. -/
def colDtype (vs : List Value) : String :=
  if vs.all (fun v => match v with | .vInt _ => true | _ => false) then "int64"
  else if vs.all (fun v => match v with | .vBool _ => true | _ => false) then "bool"
  else "object"

/-- Model of `get_schema(handle)`: builds the (column, dtype, num_rows) table — one row
per column, the row count replicated — and saves it under a fresh uuid. -/
def get_schema (db : Store) (fresh h : String) : Store × Res String :=
  match load_handle db h with
  | none => (db, .err (.handleNotFound h))
  | some df =>
    let schema : Table :=
      ⟨["column", "dtype", "num_rows"],
       df.cols.map (fun c =>
         [.vStr c, .vStr (colDtype (df.rows.map (fun r => cellOf df.cols r c))),
          .vInt (Int.ofNat df.rows.length)])⟩
    ((save_handle db fresh schema).1, .ok fresh)

/-- Model of `group_by(handle, group_columns, agg_dict)`: validates the group columns
(error lists the missing group columns), then the aggregation columns (error
lists the missing aggregation columns — when both stages fail only the group
stage's list is reported), then runs groupby/agg inside try/except. -/
def group_by (db : Store) (fresh h : String) (group_columns : List String)
    (agg_dict : List (String × String)) : Store × Res String :=
  match load_handle db h with
  | none => (db, .err (.handleNotFound h))
  | some df =>
    let missingG := group_columns.filter (fun c => decide (c ∉ df.cols))
    if missingG.isEmpty then
      let missingA := (agg_dict.map Prod.fst).filter (fun c => decide (c ∉ df.cols))
      if missingA.isEmpty then
        match groupbyAgg df group_columns agg_dict with
        | some g => ((save_handle db fresh g).1, .ok fresh)
        | none => (db, .err .groupError)
      else (db, .err (.aggColumnsNotFound missingA))
    else (db, .err (.groupColumnsNotFound missingG))

end Srv

namespace Mem

/-- The seed catalog `sample_db` of src/mcp_handles/df_abstractions.py
(5 users, 6 orders). -/
def sample_db : List (String × Table) :=
  [("users", ⟨["user_id", "name", "city"],
     [[.vInt 1, .vStr "Alice", .vStr "New York"],
      [.vInt 2, .vStr "Bob", .vStr "London"],
      [.vInt 3, .vStr "Charlie", .vStr "Paris"],
      [.vInt 4, .vStr "David", .vStr "London"],
      [.vInt 5, .vStr "Eve", .vStr "Tokyo"]]⟩),
   ("orders", ⟨["order_id", "user_id", "product", "amount"],
     [[.vInt 101, .vInt 1, .vStr "Laptop", .vInt 1200],
      [.vInt 102, .vInt 2, .vStr "Keyboard", .vInt 75],
      [.vInt 103, .vInt 1, .vStr "Mouse", .vInt 25],
      [.vInt 104, .vInt 3, .vStr "Monitor", .vInt 300],
      [.vInt 105, .vInt 5, .vStr "Webcam", .vInt 50],
      [.vInt 106, .vInt 2, .vStr "Desk", .vInt 250]]⟩)]

/-- Model of `query_database(table_name)`: copies the seed table into `data_handles`
under a fresh uuid and returns that handle. -/
def query_database (db : Store) (fresh name : String) : Store × Res String :=
  match lookupH name sample_db with
  | some t => (insertReplace fresh t db, .ok fresh)
  | none => (db, .err (.tableNotFound name))

/-- Model of `combine_columns(handle, col1, col2, new_col, sep=" ")` (in-memory
server): on a missing source column the message interpolates BOTH given
column names ("One or both columns ('{col1}', '{col2}') not found"),
whichever of them is the missing one; on success the frame is modified in
place, stored back under the same handle, and the original handle returned.
The try/except around the assignment has no failing case in the model. -/
def combine_columns (db : Store) (h c1 c2 nc sep : String) : Store × Res String :=
  match lookupH h db with
  | none => (db, .err (.handleNotFound h))
  | some df =>
    if c1 ∈ df.cols ∧ c2 ∈ df.cols then
      (insertReplace h (df.setCol nc (Srv.combinedVals df c1 c2 sep)) db, .ok h)
    else (db, .err (.columnsNotFoundPair c1 c2))

/-- Model of `join_dataframes(handle1, handle2, on_column, how='inner')` (in-memory
server): checks handle1, handle2, the join column (message names it), and —
unlike the sqlite server — validates `how` against
['left', 'right', 'outer', 'inner'] before merging, returning the
"Invalid join type" error value for anything else. -/
def join_dataframes (db : Store) (fresh h1 h2 onc how : String) : Store × Res String :=
  match lookupH h1 db with
  | none => (db, .err (.handleNotFound h1))
  | some df1 =>
    match lookupH h2 db with
    | none => (db, .err (.handleNotFound h2))
    | some df2 =>
      if onc ∈ df1.cols ∧ onc ∈ df2.cols then
        if how ∈ (["left", "right", "outer", "inner"] : List String) then
          match pdMerge df1 df2 onc how with
          | some j => (insertReplace fresh j db, .ok fresh)
          | none => (db, .raised "unreachable: validated how")
        else (db, .err (.invalidJoinKind how))
      else (db, .err (.joinColumnNotFound onc))

/-- The shape string `str(df.shape)`, e.g. "(100, 5)". -/
def shapeStr (df : Table) : String :=
  "(" ++ toString df.rows.length ++ ", " ++ toString df.cols.length ++ ")"

/-- Model of `get_shape(handle)`. -/
def get_shape (db : Store) (h : String) : Res String :=
  match lookupH h db with
  | none => .err (.handleNotFound h)
  | some df => .ok (shapeStr df)

/-- Model of `get_head(handle)`: the slice `df.head()` (first 5 rows) handed to
`to_string`; the model returns the slice whose rendering the tool returns. -/
def get_head (db : Store) (h : String) : Res Table :=
  match lookupH h db with
  | none => .err (.handleNotFound h)
  | some df => .ok ⟨df.cols, df.rows.take 5⟩

/-- Model of `get_top_n_rows(handle, n)`: rejects non-positive n with an error (no
default), caps n at MAX_ROWS = 1000, and returns the `df.head(n)` slice
handed to `to_string`. -/
def get_top_n_rows (db : Store) (h : String) (n : Int) : Res Table :=
  match lookupH h db with
  | none => .err (.handleNotFound h)
  | some df =>
    if n ≤ 0 then .err .nonPositiveN
    else .ok ⟨df.cols, df.rows.take (min n.toNat 1000)⟩

end Mem

namespace Gen

/-- The seed catalog `sample_db` of src/mcp_handles/pandas_generic.py — same
contents as the in-memory abstractions server's. -/
def sample_db : List (String × Table) :=
  Mem.sample_db

/-- Model of `query_database(table_name)`: copies the seed table into `data_handles`
under a fresh uuid and returns that handle. -/
def query_database (db : Store) (fresh name : String) : Store × Res String :=
  match lookupH name sample_db with
  | some t => (insertReplace fresh t db, .ok fresh)
  | none => (db, .err (.tableNotFound name))

/-- A Python value left in `local_vars` after `exec`: either a DataFrame or
something else (carrying its type name, used in the error message). -/
inductive PyVal
  | pyTable (t : Table)
  | pyOther (tyName : String)
deriving DecidableEq, Repr

/-- The input-loading loop of `execute_pandas_code`: resolves each
(alias, handle) pair in order, erroring on the first unknown handle; each
resolved frame is a copy (`data_handles[handle].copy()`), which the value
semantics of the model gives for free. -/
def loadInputs (db : Store) : List (String × String) → Res (List (String × PyVal))
  | [] => .ok []
  | (a, hd) :: rest =>
    match lookupH hd db with
    | none => .err (.inputHandleNotFound hd a)
    | some t =>
      match loadInputs db rest with
      | .ok env => .ok ((a, .pyTable t) :: env)
      | .err e => .err e
      | .raised m => .raised m

/-- Dict lookup in the final `local_vars`. -/
def envLookup (a : String) : List (String × PyVal) → Option PyVal
  | [] => none
  | (k, v) :: rest => if k = a then some v else envLookup a rest

/-- The output-processing loop of `execute_pandas_code`: for each requested
alias in order, a missing alias or a non-DataFrame alias aborts with an error
— but handles already minted for earlier aliases of the same call have
ALREADY been stored and stay in the store. `fr i` is the i-th `uuid.uuid4()`
draw of the call. -/
def processOutputs (fr : Nat → String) (env : List (String × PyVal)) :
    Nat → Store → List String → List (String × String) →
    Store × Res (List (String × String))
  | _, db, [], acc => (db, .ok acc.reverse)
  | i, db, a :: rest, acc =>
    match envLookup a env with
    | none => (db, .err (.aliasNotFound a))
    | some (.pyOther ty) => (db, .err (.aliasNotDataFrame a ty))
    | some (.pyTable t) =>
      processOutputs fr env (i + 1) (insertReplace (fr i) t db) rest ((a, fr i) :: acc)

/-- Model of `execute_pandas_code(code, input_handles, output_aliases)`: loads the
inputs (copies), runs `exec(code, {'pd': pd}, local_vars)`, then re-wraps the
requested output aliases as fresh handles. The exec step is modelled as an
arbitrary pure function `run` from the code string and the injected
environment of copies to the final `local_vars` (`none` models a raised,
caught exception) — the executed code holds no reference to `data_handles`,
only to the injected copies; defeating this by re-importing the module is the
sandbox escape the source explicitly disclaims. -/
def execute_pandas_code
    (run : String → List (String × PyVal) → Option (List (String × PyVal)))
    (fr : Nat → String) (db : Store) (code : String)
    (input_handles : List (String × String)) (output_aliases : List String) :
    Store × Res (List (String × String)) :=
  match loadInputs db input_handles with
  | .err e => (db, .err e)
  | .raised m => (db, .raised m)
  | .ok env =>
    match run code env with
    | none => (db, .err (.execFailed code))
    | some finalVars => processOutputs fr finalVars 0 db output_aliases []

/-- What `materialize_dataframe` hands to the chosen renderer: the claims
about the tool concern how many rows are rendered, so the model returns the
slice (and for `sample`, the sampled row count — the row choice is random)
instead of the rendered transport string. -/
inductive Materialized
  | headStr (t : Table)
  | tailStr (t : Table)
  | sampleStr (t : Table) (n : Nat)
  | fullStr (t : Table) (truncated : Bool)
  | jsonRecords (t : Table)
  | jsonSplit (t : Table)
  | csvStr (t : Table)
deriving DecidableEq, Repr

/-- The number of rows the chosen renderer receives. -/
def Materialized.renderedRows : Materialized → Nat
  | .headStr t => t.rows.length
  | .tailStr t => t.rows.length
  | .sampleStr _ n => n
  | .fullStr t _ => t.rows.length
  | .jsonRecords t => t.rows.length
  | .jsonSplit t => t.rows.length
  | .csvStr t => t.rows.length

/-- Model of `materialize_dataframe(handle, format='head_string', n=5)`: unknown
handle errors; a non-positive n falls back to the default 5 (the
non-`isinstance(n, int)` half of that guard is enforced by the model's `Int`
type); `head_string`/`tail_string` take/drop n rows with NO upper cap;
`sample_string` samples min(n, len) rows; `full_string` alone truncates to
MAX_ROWS_FULL = 1000 rows; the json/csv formats render the whole frame;
any other format string is the "Invalid format" error. The store is never
written. -/
def materialize_dataframe (db : Store) (h format : String) (n : Int) : Res Materialized :=
  match lookupH h db with
  | none => .err (.handleNotFound h)
  | some df =>
    let n2 : Nat := if n ≤ 0 then 5 else n.toNat
    if format = "head_string" then .ok (.headStr ⟨df.cols, df.rows.take n2⟩)
    else if format = "tail_string" then
      .ok (.tailStr ⟨df.cols, df.rows.drop (df.rows.length - n2)⟩)
    else if format = "sample_string" then .ok (.sampleStr df (min n2 df.rows.length))
    else if format = "full_string" then
      if df.rows.length > 1000 then .ok (.fullStr ⟨df.cols, df.rows.take 1000⟩ true)
      else .ok (.fullStr df false)
    else if format = "json_records" then .ok (.jsonRecords df)
    else if format = "json_split" then .ok (.jsonSplit df)
    else if format = "csv" then .ok (.csvStr df)
    else .err (.invalidFormat format)

/-- Model of `get_shape(handle)`. -/
def get_shape (db : Store) (h : String) : Res String :=
  match lookupH h db with
  | none => .err (.handleNotFound h)
  | some df => .ok (Mem.shapeStr df)

end Gen

namespace Srv

/-- The tool surface of the sqlite-backed server, to quantify over "every
operation". `fresh` fields are the uuid4 draws; `q` abstracts the pandas
query-expression evaluator used by `filter_rows`. -/
inductive Op
  | getDbTables
  | queryDatabase (fresh name : String)
  | combineColumns (h c1 c2 nc sep : String)
  | joinDataframes (fresh h1 h2 onc how : String)
  | selectColumns (fresh h : String) (columns : List String)
  | filterRows (q : String → Table → Option Table) (fresh h expr : String)
  | dropColumns (fresh h : String) (columns : List String)
  | removeDuplicates (fresh h : String)
  | distinctRows (fresh h : String) (columns : Option (List String))
  | getSchema (fresh h : String)
  | groupBy (fresh h : String) (gcols : List String) (aggs : List (String × String))

def Op.run : Op → Store → Store × Res String
  | .getDbTables, db => get_db_tables db
  | .queryDatabase f n, db => query_database db f n
  | .combineColumns h c1 c2 nc sep, db => combine_columns db h c1 c2 nc sep
  | .joinDataframes f h1 h2 onc how, db => join_dataframes db f h1 h2 onc how
  | .selectColumns f h cs, db => select_columns db f h cs
  | .filterRows q f h e, db => filter_rows q db f h e
  | .dropColumns f h cs, db => drop_columns db f h cs
  | .removeDuplicates f h, db => remove_duplicates db f h
  | .distinctRows f h cs, db => distinct_rows db f h cs
  | .getSchema f h, db => get_schema db f h
  | .groupBy f h g a, db => group_by db f h g a

/-- The handle arguments the operation resolves. -/
def Op.handles : Op → List String
  | .getDbTables => []
  | .queryDatabase _ _ => []
  | .combineColumns h _ _ _ _ => [h]
  | .joinDataframes _ h1 h2 _ _ => [h1, h2]
  | .selectColumns _ h _ => [h]
  | .filterRows _ _ h _ => [h]
  | .dropColumns _ h _ => [h]
  | .removeDuplicates _ h => [h]
  | .distinctRows _ h _ => [h]
  | .getSchema _ h => [h]
  | .groupBy _ h _ _ => [h]

/-- The fresh uuid the operation would mint for its result: `none` for
`get_db_tables` (no handle returned) and `combine_columns` (rebinds its
input token). -/
def Op.mints : Op → Option String
  | .getDbTables => none
  | .queryDatabase f _ => some f
  | .combineColumns _ _ _ _ _ => none
  | .joinDataframes f _ _ _ _ => some f
  | .selectColumns f _ _ => some f
  | .filterRows _ f _ _ => some f
  | .dropColumns f _ _ => some f
  | .removeDuplicates f _ => some f
  | .distinctRows f _ _ => some f
  | .getSchema f _ => some f
  | .groupBy f _ _ _ => some f

/-- A session: operations applied in sequence to the store. -/
def runAll (ops : List Op) (db : Store) : Store :=
  ops.foldl (fun d op => (op.run d).1) db

end Srv

namespace Mem

/-- The tool surface of the in-memory abstractions server. -/
inductive Op
  | queryDatabase (fresh name : String)
  | combineColumns (h c1 c2 nc sep : String)
  | joinDataframes (fresh h1 h2 onc how : String)
  | getShape (h : String)
  | getHead (h : String)
  | getTopN (h : String) (n : Int)

/-- Success payloads of the in-memory abstractions tools. -/
inductive Out
  | tok (h : String)
  | view (t : Table)
  | text (s : String)
deriving DecidableEq

def liftTok (p : Store × Res String) : Store × Res Out :=
  (p.1, p.2.map Out.tok)

def Op.run : Op → Store → Store × Res Out
  | .queryDatabase f n, db => liftTok (query_database db f n)
  | .combineColumns h c1 c2 nc sep, db => liftTok (combine_columns db h c1 c2 nc sep)
  | .joinDataframes f h1 h2 onc how, db => liftTok (join_dataframes db f h1 h2 onc how)
  | .getShape h, db => (db, (get_shape db h).map Out.text)
  | .getHead h, db => (db, (get_head db h).map Out.view)
  | .getTopN h n, db => (db, (get_top_n_rows db h n).map Out.view)

def Op.handles : Op → List String
  | .queryDatabase _ _ => []
  | .combineColumns h _ _ _ _ => [h]
  | .joinDataframes _ h1 h2 _ _ => [h1, h2]
  | .getShape h => [h]
  | .getHead h => [h]
  | .getTopN h _ => [h]

def runAll (ops : List Op) (db : Store) : Store :=
  ops.foldl (fun d op => (op.run d).1) db

end Mem

namespace Gen

/-- The tool surface of the generic-pandas server. -/
inductive Op
  | queryDatabase (fresh name : String)
  | execCode (run : String → List (String × PyVal) → Option (List (String × PyVal)))
      (fr : Nat → String) (code : String)
      (ins : List (String × String)) (outs : List String)
  | materializeDf (h format : String) (n : Int)
  | getShape (h : String)

/-- Success payloads of the generic-pandas tools. -/
inductive Out
  | tok (h : String)
  | tokMap (m : List (String × String))
  | mat (x : Materialized)
  | text (s : String)
deriving DecidableEq

def Op.run : Op → Store → Store × Res Out
  | .queryDatabase f n, db =>
    ((query_database db f n).1, (query_database db f n).2.map Out.tok)
  | .execCode r fr code ins outs, db =>
    ((execute_pandas_code r fr db code ins outs).1,
     (execute_pandas_code r fr db code ins outs).2.map Out.tokMap)
  | .materializeDf h fm n, db => (db, (materialize_dataframe db h fm n).map Out.mat)
  | .getShape h, db => (db, (get_shape db h).map Out.text)

def runAll (ops : List Op) (db : Store) : Store :=
  ops.foldl (fun d op => (op.run d).1) db

end Gen

def Gen.Op.isExec : Gen.Op → Bool
  | .execCode _ _ _ _ _ => true
  | _ => false

def Gen.Op.handleArgs : Gen.Op → List String
  | .queryDatabase _ _ => []
  | .execCode _ _ _ ins _ => ins.map Prod.snd
  | .materializeDf h _ _ => [h]
  | .getShape h => [h]

/-- A one-column test table. -/
def tX : Table := ⟨["x"], [[.vInt 1]]⟩

/-- A two-column test table whose first column repeats a value. -/
def tAB : Table := ⟨["a", "b"], [[.vInt 1, .vInt 10], [.vInt 1, .vInt 20]]⟩

/-- A two-string-column test table. -/
def tXY : Table := ⟨["a", "b"], [[.vStr "x", .vStr "y"]]⟩

/-- Left join input with a single row id=1 (the spec's L={(id,1)}). -/
def c8L1 : Table := ⟨["id"], [[.vInt 1]]⟩

/-- Right join input with columns (id, val) and the single row (1, "a") —
the spec's R={(id,"a")}: the row matching on `id` carries the value "a". -/
def c8R : Table := ⟨["id", "val"], [[.vInt 1, .vStr "a"]]⟩

/-- Left join input with rows id=1 and id=2 (the spec's L={(id,1),(id2,2)},
whose "id2 row" is the row with key 2). -/
def c8L2 : Table := ⟨["id"], [[.vInt 1], [.vInt 2]]⟩

/-- A 1002-row, single-column table (for the materialize row-cap claim). -/
def bigT : Table := ⟨["x"], (List.range 1002).map (fun i => [Value.vInt (Int.ofNat i)])⟩

theorem dedupSeen_sublist (l : List (List Value)) :
    ∀ seen, List.Sublist (dedupSeen seen l) l := by
  induction l with
  | nil => intro seen; simp [dedupSeen]
  | cons r rs ih =>
    intro seen
    simp only [dedupSeen]
    split
    · exact (ih seen).trans (List.sublist_cons_self r rs)
    · exact (ih (r :: seen)).cons₂ r

theorem dropDuplicates_sublist (l : List (List Value)) :
    List.Sublist (dropDuplicates l) l :=
  dedupSeen_sublist l []

theorem mem_dedupSeen (a : List Value) (l : List (List Value)) :
    ∀ seen, a ∈ dedupSeen seen l ↔ (a ∈ l ∧ a ∉ seen) := by
  induction l with
  | nil => intro seen; simp [dedupSeen]
  | cons r rs ih =>
    intro seen
    simp only [dedupSeen]
    split
    · next hr =>
      rw [ih seen]
      simp only [List.mem_cons]
      constructor
      · rintro ⟨h1, h2⟩; exact ⟨Or.inr h1, h2⟩
      · rintro ⟨h1 | h1, h2⟩
        · exact absurd (h1 ▸ hr) h2
        · exact ⟨h1, h2⟩
    · next hr =>
      simp only [List.mem_cons, ih (r :: seen), List.mem_cons]
      constructor
      · rintro (rfl | ⟨h1, h2⟩)
        · exact ⟨Or.inl rfl, hr⟩
        · exact ⟨Or.inr h1, fun hs => h2 (Or.inr hs)⟩
      · rintro ⟨rfl | h1, h2⟩
        · exact Or.inl rfl
        · by_cases har : a = r
          · exact Or.inl har
          · exact Or.inr ⟨h1, fun hs => by
              rcases hs with hs | hs
              · exact har hs
              · exact h2 hs⟩

theorem mem_dropDuplicates (a : List Value) (l : List (List Value)) :
    a ∈ dropDuplicates l ↔ a ∈ l := by
  rw [dropDuplicates, mem_dedupSeen]
  simp

theorem nodup_dedupSeen (l : List (List Value)) :
    ∀ seen, (dedupSeen seen l).Nodup := by
  induction l with
  | nil => intro seen; simp [dedupSeen]
  | cons r rs ih =>
    intro seen
    simp only [dedupSeen]
    split
    · exact ih seen
    · refine List.nodup_cons.mpr ⟨?_, ih (r :: seen)⟩
      intro hmem
      have := (mem_dedupSeen r rs (r :: seen)).mp hmem
      exact this.2 (List.mem_cons_self r seen)

theorem nodup_dropDuplicates (l : List (List Value)) : (dropDuplicates l).Nodup :=
  nodup_dedupSeen l []

theorem lookupH_insertReplace_self (k : String) (t : Table) (db : Store) :
    lookupH k (insertReplace k t db) = some t := by
  induction db with
  | nil => simp [insertReplace, lookupH]
  | cons p rest ih =>
    by_cases h : p.1 = k
    · simp [insertReplace, lookupH, h]
    · simp [insertReplace, lookupH, h, ih]

theorem lookupH_insertReplace_ne (k k' : String) (t : Table) (db : Store) (h : k' ≠ k) :
    lookupH k' (insertReplace k t db) = lookupH k' db := by
  induction db with
  | nil =>
    simp only [insertReplace, lookupH]
    rw [if_neg (Ne.symm h)]
  | cons p rest ih =>
    rcases p with ⟨k0, t0⟩
    by_cases hp : k0 = k
    · subst hp
      simp only [insertReplace, if_pos rfl, lookupH]
      rw [if_neg (Ne.symm h), if_neg (Ne.symm h)]
    · simp only [insertReplace, if_neg hp, lookupH]
      by_cases hk : k0 = k'
      · simp [hk]
      · simp [hk, ih]

theorem isSome_lookupH_insertReplace (k k' : String) (t : Table) (db : Store)
    (h : (lookupH k' db).isSome) : (lookupH k' (insertReplace k t db)).isSome := by
  by_cases hk : k' = k
  · subst hk; simp [lookupH_insertReplace_self]
  · rw [lookupH_insertReplace_ne k k' t db hk]; exact h

theorem srv_err_unchanged (op : Srv.Op) (db : Store) :
    (Srv.Op.run op db).2.isErr = true → (Srv.Op.run op db).1 = db := by
  cases op <;>
    simp only [Srv.Op.run, Srv.get_db_tables, Srv.query_database, Srv.combine_columns,
      Srv.join_dataframes, Srv.select_columns, Srv.filter_rows, Srv.drop_columns,
      Srv.remove_duplicates, Srv.distinct_rows, Srv.get_schema, Srv.group_by,
      Srv.save_handle] <;>
    (repeat' split) <;> simp [Res.isErr]

theorem srv_keeps_bound (op : Srv.Op) (db : Store) (h : String)
    (hs : (lookupH h db).isSome) : (lookupH h (Srv.Op.run op db).1).isSome := by
  cases op <;>
    simp only [Srv.Op.run, Srv.get_db_tables, Srv.query_database, Srv.combine_columns,
      Srv.join_dataframes, Srv.select_columns, Srv.filter_rows, Srv.drop_columns,
      Srv.remove_duplicates, Srv.distinct_rows, Srv.get_schema, Srv.group_by,
      Srv.save_handle] <;>
    (repeat' split) <;>
    first
      | exact hs
      | exact isSome_lookupH_insertReplace _ _ _ _ hs

theorem srv_runAll_keeps_bound (ops : List Srv.Op) (db : Store) (h : String)
    (hs : (lookupH h db).isSome) : (lookupH h (Srv.runAll ops db)).isSome := by
  induction ops generalizing db with
  | nil => simpa [Srv.runAll] using hs
  | cons op rest ih =>
    simp only [Srv.runAll, List.foldl_cons]
    exact ih _ (srv_keeps_bound op db h hs)

theorem mem_err_unchanged (op : Mem.Op) (db : Store) :
    (Mem.Op.run op db).2.isErr = true → (Mem.Op.run op db).1 = db := by
  cases op <;>
    simp only [Mem.Op.run, Mem.liftTok, Mem.query_database, Mem.combine_columns,
      Mem.join_dataframes, Mem.get_shape, Mem.get_head, Mem.get_top_n_rows] <;>
    (repeat' split) <;> simp [Res.isErr, Res.map]

theorem mem_keeps_bound (op : Mem.Op) (db : Store) (h : String)
    (hs : (lookupH h db).isSome) : (lookupH h (Mem.Op.run op db).1).isSome := by
  cases op <;>
    simp only [Mem.Op.run, Mem.liftTok, Mem.query_database, Mem.combine_columns,
      Mem.join_dataframes, Mem.get_shape, Mem.get_head, Mem.get_top_n_rows] <;>
    (repeat' split) <;>
    first
      | exact hs
      | exact isSome_lookupH_insertReplace _ _ _ _ hs

theorem mem_runAll_keeps_bound (ops : List Mem.Op) (db : Store) (h : String)
    (hs : (lookupH h db).isSome) : (lookupH h (Mem.runAll ops db)).isSome := by
  induction ops generalizing db with
  | nil => simpa [Mem.runAll] using hs
  | cons op rest ih =>
    simp only [Mem.runAll, List.foldl_cons]
    exact ih _ (mem_keeps_bound op db h hs)

theorem processOutputs_keeps_bound (fr : Nat → String) (env : List (String × Gen.PyVal))
    (h : String) (outs : List String) :
    ∀ (i : Nat) (db : Store) (acc : List (String × String)),
      (lookupH h db).isSome →
      (lookupH h (Gen.processOutputs fr env i db outs acc).1).isSome := by
  induction outs with
  | nil => intro i db acc hs; simpa [Gen.processOutputs] using hs
  | cons a rest ih =>
    intro i db acc hs
    simp only [Gen.processOutputs]
    cases henv : Gen.envLookup a env with
    | none => simpa using hs
    | some v =>
      cases v with
      | pyOther ty => simpa using hs
      | pyTable t => exact ih _ _ _ (isSome_lookupH_insertReplace _ _ _ _ hs)

theorem processOutputs_frame (fr : Nat → String) (env : List (String × Gen.PyVal))
    (h : String) (hfr : ∀ j, fr j ≠ h) (outs : List String) :
    ∀ (i : Nat) (db : Store) (acc : List (String × String)),
      lookupH h (Gen.processOutputs fr env i db outs acc).1 = lookupH h db := by
  induction outs with
  | nil => intro i db acc; simp [Gen.processOutputs]
  | cons a rest ih =>
    intro i db acc
    simp only [Gen.processOutputs]
    cases henv : Gen.envLookup a env with
    | none => simp
    | some v =>
      cases v with
      | pyOther ty => simp
      | pyTable t =>
        rw [ih (i + 1) (insertReplace (fr i) t db) ((a, fr i) :: acc)]
        exact lookupH_insertReplace_ne (fr i) h t db (Ne.symm (hfr i))

theorem exec_frame (run : String → List (String × Gen.PyVal) → Option (List (String × Gen.PyVal)))
    (fr : Nat → String) (db : Store) (code : String)
    (ins : List (String × String)) (outs : List String) (h : String)
    (hfr : ∀ j, lookupH (fr j) db = none) (hb : (lookupH h db).isSome) :
    lookupH h (Gen.execute_pandas_code run fr db code ins outs).1 = lookupH h db := by
  have hne : ∀ j, fr j ≠ h := by
    intro j e
    have h1 := hfr j
    rw [e] at h1
    rw [h1] at hb
    simp at hb
  simp only [Gen.execute_pandas_code]
  split
  · simp
  · simp
  · split
    · simp
    · exact processOutputs_frame fr _ h hne outs 0 db []

theorem gen_keeps_bound (op : Gen.Op) (db : Store) (h : String)
    (hs : (lookupH h db).isSome) : (lookupH h (Gen.Op.run op db).1).isSome := by
  cases op with
  | queryDatabase f n =>
    simp only [Gen.Op.run, Gen.query_database]
    (repeat' split) <;>
      first
        | exact hs
        | exact isSome_lookupH_insertReplace _ _ _ _ hs
  | execCode r fr code ins outs =>
    simp only [Gen.Op.run, Gen.execute_pandas_code]
    split
    · exact hs
    · exact hs
    · split
      · exact hs
      · exact processOutputs_keeps_bound fr _ h outs 0 db [] hs
  | materializeDf h2 fm n => simpa [Gen.Op.run] using hs
  | getShape h2 => simpa [Gen.Op.run] using hs

theorem gen_runAll_keeps_bound (ops : List Gen.Op) (db : Store) (h : String)
    (hs : (lookupH h db).isSome) : (lookupH h (Gen.runAll ops db)).isSome := by
  induction ops generalizing db with
  | nil => simpa [Gen.runAll] using hs
  | cons op rest ih =>
    simp only [Gen.runAll, List.foldl_cons]
    exact ih _ (gen_keeps_bound op db h hs)

theorem gen_err_unchanged (op : Gen.Op) (db : Store) (hx : Gen.Op.isExec op = false) :
    (Gen.Op.run op db).2.isErr = true → (Gen.Op.run op db).1 = db := by
  cases op with
  | queryDatabase f n =>
    simp only [Gen.Op.run, Gen.query_database]
    (repeat' split) <;> simp [Res.isErr, Res.map]
  | execCode r fr code ins outs => simp [Gen.Op.isExec] at hx
  | materializeDf h fm n => intro _; rfl
  | getShape h => intro _; rfl

theorem loadInputs_err_of_unknown (db : Store) (ins : List (String × String)) (hd : String)
    (hmem : hd ∈ ins.map Prod.snd) (hnone : lookupH hd db = none) :
    ∃ e, Gen.loadInputs db ins = .err e := by
  induction ins with
  | nil => simp at hmem
  | cons p rest ih =>
    rcases p with ⟨a, k⟩
    simp only [List.map_cons, List.mem_cons] at hmem
    rcases hmem with rfl | hmem
    · exact ⟨.inputHandleNotFound hd a, by simp [Gen.loadInputs, hnone]⟩
    · cases hk : lookupH k db with
      | none => exact ⟨.inputHandleNotFound k a, by simp [Gen.loadInputs, hk]⟩
      | some t =>
        obtain ⟨e, he⟩ := ih hmem
        exact ⟨e, by simp [Gen.loadInputs, hk, he]⟩

theorem srv_unknown_errs (op : Srv.Op) (db : Store) (hd : String)
    (hmem : hd ∈ Srv.Op.handles op) (hnone : lookupH hd db = none) :
    (Srv.Op.run op db).2.isErr = true := by
  cases op with
  | getDbTables => simp [Srv.Op.handles] at hmem
  | queryDatabase f n => simp [Srv.Op.handles] at hmem
  | combineColumns h c1 c2 nc sep =>
    simp only [Srv.Op.handles, List.mem_singleton] at hmem
    subst hmem
    simp [Srv.Op.run, Srv.combine_columns, Srv.load_handle, hnone, Res.isErr]
  | joinDataframes f h1 h2 onc how =>
    simp only [Srv.Op.handles, List.mem_cons, List.not_mem_nil, or_false] at hmem
    rcases hmem with rfl | rfl
    · simp [Srv.Op.run, Srv.join_dataframes, Srv.load_handle, hnone, Res.isErr]
    · cases hl1 : lookupH h1 db <;>
        simp [Srv.Op.run, Srv.join_dataframes, Srv.load_handle, hl1, hnone, Res.isErr]
  | selectColumns f h cs =>
    simp only [Srv.Op.handles, List.mem_singleton] at hmem
    subst hmem
    simp [Srv.Op.run, Srv.select_columns, Srv.load_handle, hnone, Res.isErr]
  | filterRows q f h e =>
    simp only [Srv.Op.handles, List.mem_singleton] at hmem
    subst hmem
    simp [Srv.Op.run, Srv.filter_rows, Srv.load_handle, hnone, Res.isErr]
  | dropColumns f h cs =>
    simp only [Srv.Op.handles, List.mem_singleton] at hmem
    subst hmem
    simp [Srv.Op.run, Srv.drop_columns, Srv.load_handle, hnone, Res.isErr]
  | removeDuplicates f h =>
    simp only [Srv.Op.handles, List.mem_singleton] at hmem
    subst hmem
    simp [Srv.Op.run, Srv.remove_duplicates, Srv.load_handle, hnone, Res.isErr]
  | distinctRows f h cs =>
    simp only [Srv.Op.handles, List.mem_singleton] at hmem
    subst hmem
    simp [Srv.Op.run, Srv.distinct_rows, Srv.load_handle, hnone, Res.isErr]
  | getSchema f h =>
    simp only [Srv.Op.handles, List.mem_singleton] at hmem
    subst hmem
    simp [Srv.Op.run, Srv.get_schema, Srv.load_handle, hnone, Res.isErr]
  | groupBy f h g a =>
    simp only [Srv.Op.handles, List.mem_singleton] at hmem
    subst hmem
    simp [Srv.Op.run, Srv.group_by, Srv.load_handle, hnone, Res.isErr]

theorem mem_unknown_errs (op : Mem.Op) (db : Store) (hd : String)
    (hmem : hd ∈ Mem.Op.handles op) (hnone : lookupH hd db = none) :
    (Mem.Op.run op db).2.isErr = true := by
  cases op with
  | queryDatabase f n => simp [Mem.Op.handles] at hmem
  | combineColumns h c1 c2 nc sep =>
    simp only [Mem.Op.handles, List.mem_singleton] at hmem
    subst hmem
    simp [Mem.Op.run, Mem.liftTok, Mem.combine_columns, hnone, Res.isErr, Res.map]
  | joinDataframes f h1 h2 onc how =>
    simp only [Mem.Op.handles, List.mem_cons, List.not_mem_nil, or_false] at hmem
    rcases hmem with rfl | rfl
    · simp [Mem.Op.run, Mem.liftTok, Mem.join_dataframes, hnone, Res.isErr, Res.map]
    · cases hl1 : lookupH h1 db <;>
        simp [Mem.Op.run, Mem.liftTok, Mem.join_dataframes, hl1, hnone, Res.isErr, Res.map]
  | getShape h =>
    simp only [Mem.Op.handles, List.mem_singleton] at hmem
    subst hmem
    simp [Mem.Op.run, Mem.get_shape, hnone, Res.isErr, Res.map]
  | getHead h =>
    simp only [Mem.Op.handles, List.mem_singleton] at hmem
    subst hmem
    simp [Mem.Op.run, Mem.get_head, hnone, Res.isErr, Res.map]
  | getTopN h n =>
    simp only [Mem.Op.handles, List.mem_singleton] at hmem
    subst hmem
    simp [Mem.Op.run, Mem.get_top_n_rows, hnone, Res.isErr, Res.map]

theorem gen_unknown_errs (op : Gen.Op) (db : Store) (hd : String)
    (hmem : hd ∈ Gen.Op.handleArgs op) (hnone : lookupH hd db = none) :
    (Gen.Op.run op db).2.isErr = true ∧ (Gen.Op.run op db).1 = db := by
  cases op with
  | queryDatabase f n => simp [Gen.Op.handleArgs] at hmem
  | execCode r fr code ins outs =>
    obtain ⟨e, he⟩ := loadInputs_err_of_unknown db ins hd hmem hnone
    simp [Gen.Op.run, Gen.execute_pandas_code, he, Res.isErr, Res.map]
  | materializeDf h fm n =>
    simp only [Gen.Op.handleArgs, List.mem_singleton] at hmem
    subst hmem
    simp [Gen.Op.run, Gen.materialize_dataframe, hnone, Res.isErr, Res.map]
  | getShape h =>
    simp only [Gen.Op.handleArgs, List.mem_singleton] at hmem
    subst hmem
    simp [Gen.Op.run, Gen.get_shape, hnone, Res.isErr, Res.map]

theorem srv_ok_token (op : Srv.Op) (db : Store) (r f : String)
    (hm : Srv.Op.mints op = some f) (hok : (Srv.Op.run op db).2 = .ok r) :
    r = f ∧ ∀ hd ∈ Srv.Op.handles op, (lookupH hd db).isSome := by
  cases op
  case getDbTables => exact absurd hm (by simp [Srv.Op.mints])
  case combineColumns h c1 c2 nc sep => exact absurd hm (by simp [Srv.Op.mints])
  all_goals
    simp only [Srv.Op.mints, Option.some.injEq] at hm
  all_goals
    subst hm
  all_goals
    simp only [Srv.Op.run, Srv.Op.handles, Srv.query_database, Srv.join_dataframes,
      Srv.select_columns, Srv.filter_rows, Srv.drop_columns, Srv.remove_duplicates,
      Srv.distinct_rows, Srv.get_schema, Srv.group_by, Srv.load_handle] at hok ⊢
  all_goals
    (repeat' split at hok) <;> simp_all [Srv.save_handle]

theorem findIdxCol_eq_none_iff (cols : List String) (c : String) :
    List.findIdx? (fun x => x == c) cols = none ↔ c ∉ cols := by
  rw [List.findIdx?_eq_none_iff]
  constructor
  · intro hall hmem
    have := hall c hmem
    simp at this
  · intro hnm x hx
    simp only [beq_eq_false_iff_ne, ne_eq]
    intro e
    exact hnm (e ▸ hx)

theorem setCol_cols_of_not_mem (t : Table) (c : String) (vals : List Value)
    (hc : c ∉ t.cols) : (t.setCol c vals).cols = t.cols ++ [c] := by
  simp only [Table.setCol]
  rw [(findIdxCol_eq_none_iff t.cols c).mpr hc]

theorem setCol_cols_of_mem (t : Table) (c : String) (vals : List Value)
    (hc : c ∈ t.cols) : (t.setCol c vals).cols = t.cols := by
  simp only [Table.setCol]
  split
  · rfl
  · next hf => exact absurd ((findIdxCol_eq_none_iff _ _).mp hf) (by simp [hc])

theorem srv_combine_ok (db : Store) (h c1 c2 nc sep : String) (df : Table)
    (hl : lookupH h db = some df) (h1 : c1 ∈ df.cols) (h2 : c2 ∈ df.cols) :
    Srv.combine_columns db h c1 c2 nc sep =
      (insertReplace h (df.setCol nc (Srv.combinedVals df c1 c2 sep)) db, .ok h) := by
  simp [Srv.combine_columns, Srv.load_handle, Srv.save_handle, hl, h1, h2]

theorem mem_combine_frame (db : Store) (h c1 c2 nc sep h2 : String) (hne : h2 ≠ h) :
    lookupH h2 (Mem.combine_columns db h c1 c2 nc sep).1 = lookupH h2 db := by
  simp only [Mem.combine_columns]
  (repeat' split) <;> simp [lookupH_insertReplace_ne _ _ _ _ hne]

theorem srv_combine_frame (db : Store) (h c1 c2 nc sep h2 : String) (hne : h2 ≠ h) :
    lookupH h2 (Srv.combine_columns db h c1 c2 nc sep).1 = lookupH h2 db := by
  simp only [Srv.combine_columns, Srv.load_handle, Srv.save_handle]
  (repeat' split) <;> simp [lookupH_insertReplace_ne _ _ _ _ hne]

theorem gen_query_ok (db : Store) (fresh name : String) (t : Table)
    (hseed : lookupH name Gen.sample_db = some t) :
    Gen.query_database db fresh name = (insertReplace fresh t db, .ok fresh) ∧
    lookupH fresh (Gen.query_database db fresh name).1 = some t := by
  simp [Gen.query_database, hseed, lookupH_insertReplace_self]

theorem gen_query_frame (db : Store) (fresh name h : String) (hne : h ≠ fresh) :
    lookupH h (Gen.query_database db fresh name).1 = lookupH h db := by
  simp only [Gen.query_database]
  (repeat' split) <;> simp [lookupH_insertReplace_ne _ _ _ _ hne]

/-- C5: for every store, token and table, `save_handle`'s verification read
(its second component, the `load_handle` it performs right after the
INSERT OR REPLACE) returns exactly the written table, and an immediate
`load_handle` of the same token returns a table observationally equal
(same column order, names and row values — `Table` equality) to what was
written. -/
theorem C5_save_load_roundtrip (db : Store) (h : String) (t : Table) :
    (Srv.save_handle db h t).2 = some t
    ∧ Srv.load_handle (Srv.save_handle db h t).1 h = some t := by
  constructor <;> simp [Srv.save_handle, Srv.load_handle, lookupH_insertReplace_self]

/-- C8: join semantics on the spec's concrete tables. Inner join of
L={(id,1)} with R={(id,"a")} (R's matching row carries "a" in its second
column) yields exactly one row holding both sides' columns; left join of
L={(id,1),(id2,2)} with R yields one output row per row of L, the id=2 row
carrying the missing-value marker in R's column. Shown for the sqlite
server's join (inner) and the in-memory server's join (left), both of which
delegate to the same merge model. -/
theorem C8_join_semantics :
    (Srv.join_dataframes [("l", c8L1), ("r", c8R)] "j" "l" "r" "id" "inner").2 = .ok "j"
    ∧ Srv.load_handle
        (Srv.join_dataframes [("l", c8L1), ("r", c8R)] "j" "l" "r" "id" "inner").1 "j"
        = some ⟨["id", "val"], [[.vInt 1, .vStr "a"]]⟩
    ∧ (Mem.join_dataframes [("l", c8L2), ("r", c8R)] "j" "l" "r" "id" "left").2 = .ok "j"
    ∧ lookupH "j" (Mem.join_dataframes [("l", c8L2), ("r", c8R)] "j" "l" "r" "id" "left").1
        = some ⟨["id", "val"], [[.vInt 1, .vStr "a"], [.vInt 2, .vNA]]⟩ := by
  decide

/-- C9: handle immortality. Across every sequence of operations of each of
the three servers, a token bound in the store stays bound: no operation
deletes a binding — the only write path is insert-or-replace on a single
token. -/
theorem C9_handles_immortal :
    (∀ (ops : List Srv.Op) (db : Store) (h : String),
       (lookupH h db).isSome → (lookupH h (Srv.runAll ops db)).isSome)
    ∧ (∀ (ops : List Mem.Op) (db : Store) (h : String),
       (lookupH h db).isSome → (lookupH h (Mem.runAll ops db)).isSome)
    ∧ (∀ (ops : List Gen.Op) (db : Store) (h : String),
       (lookupH h db).isSome → (lookupH h (Gen.runAll ops db)).isSome) :=
  ⟨srv_runAll_keeps_bound, mem_runAll_keeps_bound, gen_runAll_keeps_bound⟩

/-- Witness for C9 at a concrete input: the token "h", bound in a one-entry
store, is still bound after a remove_duplicates call. -/
theorem C9_handles_immortal_witness :
    (lookupH "h" (Srv.runAll [Srv.Op.removeDuplicates "f" "h"] [("h", tX)])).isSome = true :=
  C9_handles_immortal.1 [Srv.Op.removeDuplicates "f" "h"] [("h", tX)] "h" (by decide)

/-- C10: copy isolation. (1) `execute_pandas_code` — whose executed code
receives copies of the resolved input tables and no reference to the store —
leaves every previously bound handle (its input handles included) resolving
to exactly the table it held before the call, provided the minted uuids are
fresh; (2) `query_database` writes only the fresh handle; (3) the fresh
handle is bound to a table equal to the seed catalog's (the copy); (4) the
in-place `combine_columns` of both servers changes no binding other than its
own target handle. The seed catalog itself (`Gen.sample_db`) is a constant
of the model, unfalsifiably unchanged. -/
theorem C10_copy_isolation :
    (∀ (run : String → List (String × Gen.PyVal) → Option (List (String × Gen.PyVal)))
       (fr : Nat → String) (db : Store) (code : String)
       (ins : List (String × String)) (outs : List String) (h : String),
       (∀ j, lookupH (fr j) db = none) → (lookupH h db).isSome →
       lookupH h (Gen.execute_pandas_code run fr db code ins outs).1 = lookupH h db)
    ∧ (∀ (db : Store) (fresh name h : String), h ≠ fresh →
       lookupH h (Gen.query_database db fresh name).1 = lookupH h db)
    ∧ (∀ (db : Store) (fresh name : String) (t : Table),
       lookupH name Gen.sample_db = some t →
       lookupH fresh (Gen.query_database db fresh name).1 = some t)
    ∧ (∀ (db : Store) (h c1 c2 nc sep h2 : String), h2 ≠ h →
       lookupH h2 (Mem.combine_columns db h c1 c2 nc sep).1 = lookupH h2 db
       ∧ lookupH h2 (Srv.combine_columns db h c1 c2 nc sep).1 = lookupH h2 db) :=
  ⟨exec_frame,
   fun db fresh name h hne => gen_query_frame db fresh name h hne,
   fun db fresh name t hseed => (gen_query_ok db fresh name t hseed).2,
   fun db h c1 c2 nc sep h2 hne =>
     ⟨mem_combine_frame db h c1 c2 nc sep h2 hne,
      srv_combine_frame db h c1 c2 nc sep h2 hne⟩⟩

/-- Witness for C10 at concrete inputs: an exec call (code returning an
empty environment, uuid supply constantly "u") leaves the binding of "k"
untouched, and a combine on "h" leaves "k" untouched. -/
theorem C10_copy_isolation_witness :
    lookupH "k" (Gen.execute_pandas_code (fun _ _ => some []) (fun _ => "u")
        [("k", tX)] "c" [] []).1 = lookupH "k" [("k", tX)]
    ∧ lookupH "k" (Mem.combine_columns [("k", tX)] "h" "a" "b" "c" " ").1 =
        lookupH "k" [("k", tX)] :=
  ⟨C10_copy_isolation.1 (fun _ _ => some []) (fun _ => "u") [("k", tX)] "c" [] [] "k"
      (fun _ => rfl) (by decide),
   (C10_copy_isolation.2.2.2 [("k", tX)] "h" "a" "b" "c" " " "k" (by decide)).1⟩

/-- C1 counterexample: `execute_pandas_code` asked for output aliases
["a", "b"] when the executed code produced only "a" (a DataFrame): the call
returns the error value for the missing alias "b", yet the store after the
call differs from the store before it — it has gained the record minted for
"a" before the failure. -/
theorem C1_counterexample :
    (Gen.execute_pandas_code (fun _ _ => some [("a", .pyTable tX)])
        (fun i => "u" ++ toString i) [("h0", tX)] "a = d" [("d", "h0")] ["a", "b"]).2
      = .err (.aliasNotFound "b")
    ∧ (Gen.execute_pandas_code (fun _ _ => some [("a", .pyTable tX)])
        (fun i => "u" ++ toString i) [("h0", tX)] "a = d" [("d", "h0")] ["a", "b"]).1
      ≠ [("h0", tX)] := by
  decide

/-- C1 (amended): an operation of any of the three servers that returns an
error value leaves every existing binding unchanged, and — for every
operation except `execute_pandas_code` — leaves the store exactly equal to
the store before the call; `execute_pandas_code` may retain the handles it
minted for output aliases processed before the failing alias, but (given
fresh uuids) never alters or removes a pre-existing binding. Any operation
handed a token that is not a key of the store (never produced by create)
returns an error and, on the paths above, leaves the store unchanged. -/
theorem C1_failed_ops_leave_store :
    (∀ (op : Srv.Op) (db : Store),
       (Srv.Op.run op db).2.isErr = true → (Srv.Op.run op db).1 = db)
    ∧ (∀ (op : Mem.Op) (db : Store),
       (Mem.Op.run op db).2.isErr = true → (Mem.Op.run op db).1 = db)
    ∧ (∀ (op : Gen.Op) (db : Store), Gen.Op.isExec op = false →
       (Gen.Op.run op db).2.isErr = true → (Gen.Op.run op db).1 = db)
    ∧ (∀ (run : String → List (String × Gen.PyVal) → Option (List (String × Gen.PyVal)))
       (fr : Nat → String) (db : Store) (code : String)
       (ins : List (String × String)) (outs : List String) (h : String),
       (∀ j, lookupH (fr j) db = none) → (lookupH h db).isSome →
       lookupH h (Gen.execute_pandas_code run fr db code ins outs).1 = lookupH h db)
    ∧ (∀ (op : Srv.Op) (db : Store) (hd : String),
       hd ∈ Srv.Op.handles op → lookupH hd db = none →
       (Srv.Op.run op db).2.isErr = true ∧ (Srv.Op.run op db).1 = db)
    ∧ (∀ (op : Mem.Op) (db : Store) (hd : String),
       hd ∈ Mem.Op.handles op → lookupH hd db = none →
       (Mem.Op.run op db).2.isErr = true ∧ (Mem.Op.run op db).1 = db)
    ∧ (∀ (op : Gen.Op) (db : Store) (hd : String),
       hd ∈ Gen.Op.handleArgs op → lookupH hd db = none →
       (Gen.Op.run op db).2.isErr = true ∧ (Gen.Op.run op db).1 = db) :=
  ⟨srv_err_unchanged, mem_err_unchanged, gen_err_unchanged, exec_frame,
   fun op db hd hmem hnone =>
     ⟨srv_unknown_errs op db hd hmem hnone,
      srv_err_unchanged op db (srv_unknown_errs op db hd hmem hnone)⟩,
   fun op db hd hmem hnone =>
     ⟨mem_unknown_errs op db hd hmem hnone,
      mem_err_unchanged op db (mem_unknown_errs op db hd hmem hnone)⟩,
   fun op db hd hmem hnone => gen_unknown_errs op db hd hmem hnone⟩

/-- Witness for C1 (amended) at concrete inputs: a select_columns call on a
missing column errors and leaves the one-entry store equal, and a lookup of
an unknown token errors without change. -/
theorem C1_failed_ops_leave_store_witness :
    (Srv.Op.run (Srv.Op.selectColumns "f" "h" ["nope"]) [("h", tX)]).1 = [("h", tX)]
    ∧ (Mem.Op.run (Mem.Op.getShape "ghost") [("h", tX)]).2.isErr = true :=
  ⟨C1_failed_ops_leave_store.1 (Srv.Op.selectColumns "f" "h" ["nope"]) [("h", tX)] (by decide),
   (C1_failed_ops_leave_store.2.2.2.2.2.1 (Mem.Op.getShape "ghost") [("h", tX)] "ghost"
      (by decide) (by decide)).1⟩

/-- C2 counterexample: a successful `combine_columns` whose new column name
"a" is already a column. The call succeeds and returns the same token, but
resolving it yields a table with the SAME columns as before (the existing
column "a" was overwritten in place) — not the prior table extended with a
new combined column. -/
theorem C2_counterexample :
    (Srv.combine_columns [("h", tXY)] "h" "a" "b" "a" " ").2 = .ok "h"
    ∧ Srv.load_handle (Srv.combine_columns [("h", tXY)] "h" "a" "b" "a" " ").1 "h" =
        some ⟨["a", "b"], [[.vStr "x y", .vStr "y"]]⟩
    ∧ (⟨["a", "b"], [[.vStr "x y", .vStr "y"]]⟩ : Table).cols ≠ tXY.cols ++ ["a"] := by
  decide

/-- C2 (amended): a successful `combine_columns(h, ...)` returns the same
token h, and resolving h afterwards yields the prior table with the combined
column assigned — appended at the end when the new column name was not
already a column, overwriting that column in place (same column list) when
it was. Every other operation of the sqlite server that mints a result
handle returns a token distinct from all of its input handles, provided the
minted uuid is fresh (not already a key of the store). -/
theorem C2_rebind_vs_fresh :
    (∀ (db : Store) (h c1 c2 nc sep : String) (df : Table),
       lookupH h db = some df → c1 ∈ df.cols → c2 ∈ df.cols →
       (Srv.combine_columns db h c1 c2 nc sep).2 = .ok h
       ∧ Srv.load_handle (Srv.combine_columns db h c1 c2 nc sep).1 h =
           some (df.setCol nc (Srv.combinedVals df c1 c2 sep))
       ∧ (nc ∉ df.cols →
            (df.setCol nc (Srv.combinedVals df c1 c2 sep)).cols = df.cols ++ [nc])
       ∧ (nc ∈ df.cols →
            (df.setCol nc (Srv.combinedVals df c1 c2 sep)).cols = df.cols))
    ∧ (∀ (op : Srv.Op) (db : Store) (r f : String),
       Srv.Op.mints op = some f → lookupH f db = none →
       (Srv.Op.run op db).2 = .ok r → r ∉ Srv.Op.handles op) := by
  constructor
  · intro db h c1 c2 nc sep df hl h1 h2
    rw [srv_combine_ok db h c1 c2 nc sep df hl h1 h2]
    refine ⟨rfl, ?_, ?_, ?_⟩
    · simp [Srv.load_handle, lookupH_insertReplace_self]
    · intro hnc; exact setCol_cols_of_not_mem df nc _ hnc
    · intro hnc; exact setCol_cols_of_mem df nc _ hnc
  · intro op db r f hm hnone hok hmem
    obtain ⟨rfl, hall⟩ := srv_ok_token op db r f hm hok
    have hs := hall r hmem
    rw [hnone] at hs
    simp at hs

/-- Witness for C2 (amended) at concrete inputs: combining into the fresh
column name "c" succeeds with the same token, and a select_columns minting
the fresh uuid "f" returns a token that is none of its inputs. -/
theorem C2_rebind_vs_fresh_witness :
    (Srv.combine_columns [("h", tXY)] "h" "a" "b" "c" " ").2 = .ok "h"
    ∧ "f" ∉ Srv.Op.handles (Srv.Op.selectColumns "f" "h" ["a"]) :=
  ⟨(C2_rebind_vs_fresh.1 [("h", tXY)] "h" "a" "b" "c" " " tXY (by decide) (by decide)
      (by decide)).1,
   C2_rebind_vs_fresh.2 (Srv.Op.selectColumns "f" "h" ["a"]) [("h", tXY)] "f" "f"
      (by decide) (by decide) (by decide)⟩

theorem missing_all_cols (cs cols : List String)
    (hmiss : (cs.filter (fun c => decide (c ∉ cols))).isEmpty = false) :
    ¬(∀ a ∈ cs, a ∈ cols) := by
  intro hall
  rw [List.isEmpty_eq_false, ne_eq, List.filter_eq_nil_iff] at hmiss
  exact hmiss (fun a ha => by simp [hall a ha])

theorem all_cols_of_missing_empty (cs cols : List String)
    (hemp : (cs.filter (fun c => decide (c ∉ cols))).isEmpty = true) :
    ∀ a ∈ cs, a ∈ cols := by
  intro a ha
  rw [List.isEmpty_eq_true, List.filter_eq_nil_iff] at hemp
  have := hemp a ha
  simpa using this

/-- C3 counterexample: (1) the sqlite server's `combine_columns` with both
source columns missing returns an error that lists NO column names at all
(its message is the fixed "Error: Column(s) not found."), so neither missing
name is listed; (2) `group_by` with a missing group column AND a missing
aggregation column reports only the group stage's list — the missing
aggregation column "g2" is not listed. -/
theorem C3_counterexample :
    ((Srv.combine_columns [("h", tX)] "h" "nope1" "nope2" "c" " ").2 =
        .err .columnsNotFoundNoNames
      ∧ Err.listedCols .columnsNotFoundNoNames = [])
    ∧ ((Srv.group_by [("h", tX)] "f" "h" ["g1"] [("g2", "sum")]).2 =
        .err (.groupColumnsNotFound ["g1"])
      ∧ "g2" ∉ Err.listedCols (.groupColumnsNotFound ["g1"])) := by
  refine ⟨⟨by decide, rfl⟩, by decide, by decide⟩

/-- C3 (amended): operations validating a LIST of referenced columns list
exactly the missing names of the list being validated: `select_columns` and
`distinct_rows` list every requested column absent from the frame;
`group_by` validates group columns first and, only when those all exist,
aggregation columns — each stage listing all of its own missing names (so a
call failing both stages reports only the missing group columns).
`combine_columns` deviates: the sqlite server's error names no columns at
all, and the in-memory server's error names both given columns (a superset
of the missing ones), whichever was missing. -/
theorem C3_missing_column_listing :
    (∀ (db : Store) (f h : String) (cs : List String) (df : Table),
       lookupH h db = some df →
       (cs.filter (fun c => decide (c ∉ df.cols))).isEmpty = false →
       (Srv.select_columns db f h cs).2 =
         .err (.columnsNotFound (cs.filter (fun c => decide (c ∉ df.cols))))
       ∧ ∀ c, c ∈ cs.filter (fun c => decide (c ∉ df.cols)) ↔ (c ∈ cs ∧ c ∉ df.cols))
    ∧ (∀ (db : Store) (f h : String) (cs : List String) (df : Table),
       lookupH h db = some df → cs.isEmpty = false →
       (cs.filter (fun c => decide (c ∉ df.cols))).isEmpty = false →
       (Srv.distinct_rows db f h (some cs)).2 =
         .err (.columnsNotFound (cs.filter (fun c => decide (c ∉ df.cols)))))
    ∧ (∀ (db : Store) (f h : String) (gcols : List String)
         (aggs : List (String × String)) (df : Table),
       lookupH h db = some df →
       (gcols.filter (fun c => decide (c ∉ df.cols))).isEmpty = false →
       (Srv.group_by db f h gcols aggs).2 =
         .err (.groupColumnsNotFound (gcols.filter (fun c => decide (c ∉ df.cols))))
       ∧ ∀ c, c ∈ gcols.filter (fun c => decide (c ∉ df.cols)) ↔ (c ∈ gcols ∧ c ∉ df.cols))
    ∧ (∀ (db : Store) (f h : String) (gcols : List String)
         (aggs : List (String × String)) (df : Table),
       lookupH h db = some df →
       (gcols.filter (fun c => decide (c ∉ df.cols))).isEmpty = true →
       ((aggs.map Prod.fst).filter (fun c => decide (c ∉ df.cols))).isEmpty = false →
       (Srv.group_by db f h gcols aggs).2 =
         .err (.aggColumnsNotFound ((aggs.map Prod.fst).filter (fun c => decide (c ∉ df.cols)))))
    ∧ (∀ (db : Store) (h c1 c2 nc sep : String) (df : Table),
       lookupH h db = some df → ¬(c1 ∈ df.cols ∧ c2 ∈ df.cols) →
       (Srv.combine_columns db h c1 c2 nc sep).2 = .err .columnsNotFoundNoNames
       ∧ Err.listedCols .columnsNotFoundNoNames = [])
    ∧ (∀ (db : Store) (h c1 c2 nc sep : String) (df : Table),
       lookupH h db = some df → ¬(c1 ∈ df.cols ∧ c2 ∈ df.cols) →
       (Mem.combine_columns db h c1 c2 nc sep).2 = .err (.columnsNotFoundPair c1 c2)
       ∧ ∀ c, (c = c1 ∨ c = c2) → c ∈ Err.listedCols (.columnsNotFoundPair c1 c2)) := by
  refine ⟨?_, ?_, ?_, ?_, ?_, ?_⟩
  · intro db f h cs df hl hmiss
    constructor
    · simp [Srv.select_columns, Srv.load_handle, hl, missing_all_cols cs df.cols hmiss]
    · intro c; simp [List.mem_filter]
  · intro db f h cs df hl hcs hmiss
    simp [Srv.distinct_rows, Srv.load_handle, hl, hcs, missing_all_cols cs df.cols hmiss]
  · intro db f h gcols aggs df hl hmiss
    constructor
    · simp [Srv.group_by, Srv.load_handle, hl, missing_all_cols gcols df.cols hmiss]
    · intro c; simp [List.mem_filter]
  · intro db f h gcols aggs df hl hg hmiss
    simp only [Srv.group_by, Srv.load_handle, hl]
    rw [if_pos hg, if_neg (fun hemp => Bool.noConfusion (hemp.symm.trans hmiss))]
  · intro db h c1 c2 nc sep df hl hmiss
    constructor
    · simp only [Srv.combine_columns, Srv.load_handle, hl]
      rw [if_neg hmiss]
    · rfl
  · intro db h c1 c2 nc sep df hl hmiss
    constructor
    · simp only [Mem.combine_columns, hl]
      rw [if_neg hmiss]
    · intro c hc
      rcases hc with rfl | rfl <;> simp [Err.listedCols]

/-- Witness for C3 (amended) at concrete inputs: selecting the absent
columns ["n1", "n2"] from the one-column table lists both missing names. -/
theorem C3_missing_column_listing_witness :
    (Srv.select_columns [("h", tX)] "f" "h" ["n1", "n2"]).2 =
      .err (.columnsNotFound (["n1", "n2"].filter (fun c => decide (c ∉ tX.cols)))) :=
  (C3_missing_column_listing.1 [("h", tX)] "f" "h" ["n1", "n2"] tX (by decide) (by decide)).1

/-- C4 counterexample: the sqlite server's `join_dataframes` with the
unknown kind "zigzag" on two bound handles sharing the join column does not
return an InvalidParameter-style error value — `pd.merge` is called with the
unvalidated kind and raises an uncaught exception. -/
theorem C4_counterexample :
    (Srv.join_dataframes [("l", tX), ("r", tX)] "j" "l" "r" "x" "zigzag").2 =
      .raised "pandas merge: invalid how"
    ∧ (Srv.join_dataframes [("l", tX), ("r", tX)] "j" "l" "r" "x" "zigzag").2.isErr
      = false := by
  decide

/-- C4 (amended): for bound handles and a join kind outside
{inner, left, right, outer}, the in-memory server's `join_dataframes`
returns the "Invalid join type" error value, but the sqlite server's —
which never validates the kind — raises the uncaught pandas exception
(leaving the store unchanged). A join column absent from either side yields
the join-column-not-found error value in both servers. -/
theorem C4_join_validation :
    (∀ (db : Store) (f h1 h2 onc how : String) (df1 df2 : Table),
       lookupH h1 db = some df1 → lookupH h2 db = some df2 →
       onc ∈ df1.cols → onc ∈ df2.cols →
       how ∉ (["left", "right", "outer", "inner"] : List String) →
       Mem.join_dataframes db f h1 h2 onc how = (db, .err (.invalidJoinKind how)))
    ∧ (∀ (db : Store) (f h1 h2 onc how : String) (df1 df2 : Table),
       lookupH h1 db = some df1 → lookupH h2 db = some df2 →
       onc ∈ df1.cols → onc ∈ df2.cols →
       how ∉ (["left", "right", "outer", "inner"] : List String) →
       Srv.join_dataframes db f h1 h2 onc how = (db, .raised "pandas merge: invalid how"))
    ∧ (∀ (db : Store) (f h1 h2 onc how : String) (df1 df2 : Table),
       lookupH h1 db = some df1 → lookupH h2 db = some df2 →
       ¬(onc ∈ df1.cols ∧ onc ∈ df2.cols) →
       Mem.join_dataframes db f h1 h2 onc how = (db, .err (.joinColumnNotFound onc))
       ∧ Srv.join_dataframes db f h1 h2 onc how = (db, .err .joinColumnNotFoundNoName)) := by
  refine ⟨?_, ?_, ?_⟩
  · intro db f h1 h2 onc how df1 df2 hl1 hl2 hc1 hc2 hhow
    simp only [Mem.join_dataframes, hl1, hl2]
    rw [if_pos ⟨hc1, hc2⟩, if_neg hhow]
  · intro db f h1 h2 onc how df1 df2 hl1 hl2 hc1 hc2 hhow
    simp only [List.mem_cons, List.not_mem_nil, or_false, not_or] at hhow
    obtain ⟨hL, hR, hO, hI⟩ := hhow
    have hm : pdMerge df1 df2 onc how = none := by simp [pdMerge, hL, hR, hO, hI]
    simp only [Srv.join_dataframes, Srv.load_handle, hl1, hl2]
    rw [if_pos ⟨hc1, hc2⟩, hm]
  · intro db f h1 h2 onc how df1 df2 hl1 hl2 hnc
    constructor
    · simp only [Mem.join_dataframes, hl1, hl2]
      rw [if_neg hnc]
    · simp only [Srv.join_dataframes, Srv.load_handle, hl1, hl2]
      rw [if_neg hnc]

/-- Witness for C4 (amended) at concrete inputs: the in-memory join with
kind "cross" on two bound handles returns the invalid-join-kind error and
leaves the store as it was. -/
theorem C4_join_validation_witness :
    Mem.join_dataframes [("l", tX), ("r", tX)] "j" "l" "r" "x" "cross" =
      ([("l", tX), ("r", tX)], .err (.invalidJoinKind "cross")) :=
  C4_join_validation.1 [("l", tX), ("r", tX)] "j" "l" "r" "x" "cross" tX tX
    (by decide) (by decide) (by decide) (by decide) (by decide)

/-- C6 counterexample: `distinct_rows` on the two-column table tAB with the
subset ["a"] succeeds, but the resulting table holds ONLY the column "a" —
the kept row did not retain the table's full set of columns, because the
source computes `df[columns].drop_duplicates()`, projecting before
deduplicating. -/
theorem C6_counterexample :
    (Srv.distinct_rows [("h", tAB)] "f" "h" (some ["a"])).2 = .ok "f"
    ∧ Srv.load_handle (Srv.distinct_rows [("h", tAB)] "f" "h" (some ["a"])).1 "f" =
        some ⟨["a"], [[.vInt 1]]⟩
    ∧ (⟨["a"], [[.vInt 1]]⟩ : Table).cols ≠ tAB.cols := by
  decide

/-- C6 (amended): for a bound handle and a non-empty subset of existing
columns, `distinct_rows` succeeds, binding a fresh handle to the PROJECTION
of the table to the subset columns deduplicated with first occurrences kept:
the result's columns are exactly the subset (the input's other columns are
NOT retained), and its rows are a duplicate-free, order-preserving sublist
of the projected rows containing every projected row value. -/
theorem C6_distinct_subset :
    ∀ (db : Store) (f h : String) (cs : List String) (df : Table),
      lookupH h db = some df → cs.isEmpty = false → (∀ c ∈ cs, c ∈ df.cols) →
      (Srv.distinct_rows db f h (some cs)).2 = .ok f
      ∧ Srv.load_handle (Srv.distinct_rows db f h (some cs)).1 f =
          some ⟨cs, dropDuplicates (df.project cs).rows⟩
      ∧ List.Sublist (dropDuplicates (df.project cs).rows) (df.project cs).rows
      ∧ (dropDuplicates (df.project cs).rows).Nodup
      ∧ (∀ r, r ∈ dropDuplicates (df.project cs).rows ↔ r ∈ (df.project cs).rows) := by
  intro db f h cs df hl hcs hall
  have hemp : (cs.filter (fun c => decide (c ∉ df.cols))).isEmpty = true := by
    rw [List.isEmpty_eq_true, List.filter_eq_nil_iff]
    intro a ha
    simp [hall a ha]
  simp only [Srv.distinct_rows, Srv.load_handle, Srv.save_handle, hl]
  rw [if_neg (fun hemp2 => Bool.noConfusion (hemp2.symm.trans hcs)), if_pos hemp]
  exact ⟨rfl, by simp [lookupH_insertReplace_self], dropDuplicates_sublist _,
    nodup_dropDuplicates _, fun r => mem_dropDuplicates r _⟩

/-- Witness for C6 (amended) at concrete inputs: the subset ["a", "b"]
(all columns) on tAB succeeds. -/
theorem C6_distinct_subset_witness :
    (Srv.distinct_rows [("h", tAB)] "f" "h" (some ["a", "b"])).2 = .ok "f" :=
  (C6_distinct_subset [("h", tAB)] "f" "h" ["a", "b"] tAB (by decide) (by decide)
    (by decide)).1

/-- C7 counterexample: `materialize_dataframe` in the head-like preview
format `head_string` with n = 1001 on a 1002-row table hands the renderer
1001 rows — more than 1000: the 1000-row cap applies only to `full_string`,
not to the head-like previews. -/
theorem C7_counterexample :
    Gen.materialize_dataframe [("h", bigT)] "h" "head_string" 1001 =
      .ok (.headStr ⟨["x"], bigT.rows.take 1001⟩)
    ∧ Gen.Materialized.renderedRows (.headStr ⟨["x"], bigT.rows.take 1001⟩) = 1001
    ∧ 1000 < 1001 := by
  refine ⟨rfl, ?_, by norm_num⟩
  simp [Gen.Materialized.renderedRows, bigT]

/-- C7 (amended): for a bound handle, `materialize_dataframe` falls back to
the default n = 5 on a non-positive n (non-integer n is excluded by the
model's `Int` type, mirroring the same guard) rather than failing; an
unknown format string returns the "Invalid format" error; `full_string`
alone caps the rendered rows at 1000; the head-like preview `head_string`
renders min(n, row count) rows with NO 1000 cap. The separate
`get_top_n_rows` tool of the basic in-memory server does cap n at 1000 — and
rejects a non-positive n with an error instead of defaulting. -/
theorem C7_materialize_limits :
    (∀ (db : Store) (h fm : String) (n : Int) (df : Table),
       lookupH h db = some df → n ≤ 0 →
       Gen.materialize_dataframe db h fm n = Gen.materialize_dataframe db h fm 5)
    ∧ (∀ (db : Store) (h fm : String) (n : Int) (df : Table),
       lookupH h db = some df →
       fm ∉ (["head_string", "tail_string", "sample_string", "full_string",
              "json_records", "json_split", "csv"] : List String) →
       Gen.materialize_dataframe db h fm n = .err (.invalidFormat fm))
    ∧ (∀ (db : Store) (h : String) (n : Int) (df : Table) (m : Gen.Materialized),
       lookupH h db = some df →
       Gen.materialize_dataframe db h "full_string" n = .ok m →
       Gen.Materialized.renderedRows m ≤ 1000)
    ∧ (∀ (db : Store) (h : String) (n : Int) (df : Table),
       lookupH h db = some df → 0 < n →
       Gen.materialize_dataframe db h "head_string" n =
         .ok (.headStr ⟨df.cols, df.rows.take n.toNat⟩))
    ∧ (∀ (db : Store) (h : String) (n : Int) (df : Table),
       lookupH h db = some df → 1000 < n →
       Mem.get_top_n_rows db h n = .ok ⟨df.cols, df.rows.take 1000⟩)
    ∧ (∀ (db : Store) (h : String) (n : Int),
       (lookupH h db).isSome → n ≤ 0 →
       Mem.get_top_n_rows db h n = .err .nonPositiveN) := by
  refine ⟨?_, ?_, ?_, ?_, ?_, ?_⟩
  · intro db h fm n df hl hn
    have h5 : (if (5 : Int) ≤ 0 then 5 else (5 : Int).toNat) = 5 := rfl
    simp only [Gen.materialize_dataframe, hl]
    rw [if_pos hn, h5]
  · intro db h fm n df hl hfm
    simp only [List.mem_cons, List.not_mem_nil, or_false, not_or] at hfm
    obtain ⟨h1, h2, h3, h4, h5, h6, h7⟩ := hfm
    simp [Gen.materialize_dataframe, hl, h1, h2, h3, h4, h5, h6, h7]
  · intro db h n df m hl hok
    simp only [Gen.materialize_dataframe, hl] at hok
    rw [if_neg (by decide : ¬("full_string" = "head_string")),
        if_neg (by decide : ¬("full_string" = "tail_string")),
        if_neg (by decide : ¬("full_string" = "sample_string")), if_true] at hok
    split at hok
    · injection hok with e
      subst e
      simp only [Gen.Materialized.renderedRows, List.length_take]
      omega
    · next hlen =>
      injection hok with e
      subst e
      simp only [Gen.Materialized.renderedRows]
      omega
  · intro db h n df hl hn
    simp only [Gen.materialize_dataframe, hl]
    rw [if_neg (by omega : ¬n ≤ 0)]
    norm_num
  · intro db h n df hl hn
    simp only [Mem.get_top_n_rows, hl]
    rw [if_neg (by omega : ¬n ≤ 0)]
    have hmin : min n.toNat 1000 = 1000 := by omega
    rw [hmin]
  · intro db h n hs hn
    obtain ⟨df, hl⟩ := Option.isSome_iff_exists.mp hs
    simp [Mem.get_top_n_rows, hl, hn]

/-- Witness for C7 (amended) at concrete inputs: n = -3 behaves as the
default n = 5, and get_top_n_rows with n = 2000 returns the 1000-capped
slice. -/
theorem C7_materialize_limits_witness :
    Gen.materialize_dataframe [("h", tX)] "h" "head_string" (-3) =
      Gen.materialize_dataframe [("h", tX)] "h" "head_string" 5
    ∧ Mem.get_top_n_rows [("h", tX)] "h" 2000 = .ok ⟨tX.cols, tX.rows.take 1000⟩ :=
  ⟨C7_materialize_limits.1 [("h", tX)] "h" "head_string" (-3) tX (by decide) (by decide),
   C7_materialize_limits.2.2.2.2.1 [("h", tX)] "h" 2000 tX (by decide) (by decide)⟩
